import Mathlib

set_option maxRecDepth 8000
set_option linter.unusedVariables false

/-! # Shallow embedding of the LOTL chat service and planning-agent tools

Definitions are translated from src/chat_server.py and src/taba_agent.py.
Python strings are modeled as Lean String (Python len and Lean String.length
both count Unicode code points).  Numbers the code merely passes through
(scores, thresholds, token counts) are modeled as Int, since the code performs
no arithmetic on them.  Python exceptions are modeled with Except (the error
payload is str(e)).  Outbound effects (the vector-store HTTP transport and the
OpenAI client) are modeled by explicit oracle ("environment") values that
describe the outcome of each outbound call; the calls a handler performs are
recorded in an effect trace. -/

/-- JSON values, as produced by json.loads and consumed by json.dumps. -/
inductive JVal where
  | null
  | bool (b : Bool)
  | num (n : Int)
  | str (s : String)
  | arr (elems : List JVal)
  | obj (fields : List (String × JVal))

/-- Lookup of a key in a JSON object's field list (first match; the server
never builds objects with duplicate keys).  Models Python dict.get(key). -/
def jLookup (fields : List (String × JVal)) (key : String) : Option JVal :=
  (fields.find? (fun kv => kv.1 == key)).map (fun kv => kv.2)

/-- dict.get(key) on a decoded JSON value: only objects have fields. -/
def getField (j : JVal) (key : String) : Option JVal :=
  match j with
  | JVal.obj fields => jLookup fields key
  | _ => none

/-- Python truthiness of a decoded JSON value. -/
def jTruthy : JVal → Bool
  | JVal.null => false
  | JVal.bool b => b
  | JVal.num n => n != 0
  | JVal.str s => s != ""
  | JVal.arr xs => !xs.isEmpty
  | JVal.obj fs => !fs.isEmpty

/-- The ASCII whitespace characters Python str.strip() removes (its further
Unicode whitespace never reaches this server's call sites). -/
def pySpaceChar (c : Char) : Bool :=
  c == ' ' || c == '\t' || c == '\n' || c == '\r' || c == '\x0b' || c == '\x0c'

/-- Python str.strip(): remove whitespace at both ends. -/
def pyStrip (s : String) : String :=
  String.mk (((s.data.dropWhile pySpaceChar).reverse.dropWhile pySpaceChar).reverse)

/-- ASCII lowercasing of one character (headers are ASCII). -/
def lowerChar (c : Char) : Char :=
  if 65 ≤ c.toNat ∧ c.toNat ≤ 90 then Char.ofNat (c.toNat + 32) else c

/-- ASCII lowercasing of a header name. -/
def lowerName (s : String) : String := String.mk (s.data.map lowerChar)

/-- Splitting a character list on commas (Python str.split(",")). -/
def splitCommaAux : List Char → List Char → List (List Char)
  | [], cur => [cur.reverse]
  | c :: rest, cur =>
    if c = ',' then cur.reverse :: splitCommaAux rest []
    else splitCommaAux rest (c :: cur)

/-- Python s.split(","): the empty string yields [""]. -/
def pySplitComma (s : String) : List String :=
  (splitCommaAux s.data []).map String.mk

/-- Python "sep".join(parts). -/
def pyJoin (sep : String) : List String → String
  | [] => ""
  | [x] => x
  | x :: y :: xs => x ++ sep ++ pyJoin sep (y :: xs)

/-- Python `a or b` for an optional string `a` (None and "" are falsy):
the value of `a` when truthy, otherwise `dflt`. -/
def pyOrStr (v : Option String) (dflt : String) : String :=
  match v with
  | some s => if s = "" then dflt else s
  | none => dflt

/-- JSON encoding of an optional string (None becomes null). -/
def optStr : Option String → JVal
  | some s => JVal.str s
  | none => JVal.null

/-- JSON encoding of an optional number (None becomes null). -/
def optNum : Option Int → JVal
  | some n => JVal.num n
  | none => JVal.null

/-! ## taba_agent.py: static lookup tools -/

/-- get_parcels_by_zoning (src/taba_agent.py, lines 56-64): a static
zoning-to-parcel lookup, hardcoded for one city/zoning pair. -/
def get_parcels_by_zoning (city : String) (zoning_type : String) : String :=
  if city = "באר שבע" ∧ zoning_type = "אזור תעשייה" then
    "המגרשים 123, 456 נמצאים באזור תעשייה בבאר שבע, תכניות בניין עיר: 100/1, 200/2."
  else
    "לא נמצאו מגרשים התואמים לקריטריונים."

/-- get_plan_details (src/taba_agent.py, lines 66-75): a static
plan-number-to-details lookup, hardcoded for one plan number. -/
def get_plan_details (plan_number : String) : String :=
  if plan_number = "100/1" then
    "תכנית 100/1 מיועדת לאזור תעשייה, מאפשרת 500% זכויות בניה, מטרות: הרחבת אזור תעשייה קיים."
  else
    "לא נמצאו פרטים לתכנית זו."

/-! ## chat_server.py: configuration, data model -/

/-- The process-wide configuration read from environment variables at startup
(src/chat_server.py, lines 47-58).  cors_allow_env is the raw
CORS_ALLOW_ORIGINS string; top_k/thresh defaults are TOP_K and SIM_THRESHOLD. -/
structure ChatConfig where
  chat_api_secret : String
  vs_api_key : String
  cors_allow_env : String
  chat_use_resp : Bool
  chat_model : String
  vs_api_base : String
  port : Int
  top_k_default : Int
  thresh_default : Int

/-- CORS_ALLOW (line 54): split the env string on commas, strip each entry,
keep the non-empty ones. -/
def parseCorsAllow (s : String) : List String :=
  ((pySplitComma s).map pyStrip).filter (fun o => o != "")

/-- allow_origin (lines 78-83): wildcard when no allow-list is configured;
otherwise echo the request origin exactly when it is truthy and listed. -/
def allow_origin (corsAllow : List String) (origin : Option String) : Option String :=
  if corsAllow = [] then some "*"
  else match origin with
    | some o => if o ≠ "" ∧ o ∈ corsAllow then some o else none
    | none => none

/-- A search result as the server reads it: the fields it accesses via r.get,
per the SearchResult data model.  Absent keys are None. -/
structure SearchResult where
  doc_id : Option String
  filename : Option String
  score : Option Int
  excerpt : Option String
  tags : Option (List String)
deriving DecidableEq

/-- JSON encoding of the optional tags list. -/
def optTags : Option (List String) → JVal
  | some l => JVal.arr (l.map JVal.str)
  | none => JVal.null

/-! ## chat_server.py: RAG client (rag_search, lines 87-115) -/

/-- The body of a /api/vs/search response, at the granularity the code reads
it: the value of the "ok" key (absent keys are none) and the value of the
"results" key (data.get("results", []) defaults to the empty list). -/
structure VsBody where
  okFlag : Option JVal
  results : Option (List SearchResult)

/-- Outcome of one attempt against the vector-store endpoint: either
requests.post raised (connection error, timeout, ...), or a response arrived
with a status code and a JSON-decoding outcome for its body (r.json() raises
on a non-JSON body). -/
inductive RagAttempt where
  | transportError (e : String)
  | response (status : Nat) (body : Except String VsBody)

/-- One iteration of the rag_search retry loop (lines 104-113): requests.post
may raise; r.raise_for_status() raises exactly for statuses 400-599; r.json()
may raise; then the body's "ok" flag is tested for truthiness and, when it is
truthy, data.get("results", []) is returned.  none means the attempt failed
and the loop continues. -/
def rag_attempt (a : RagAttempt) : Option (List SearchResult) :=
  match a with
  | RagAttempt.transportError _ => none
  | RagAttempt.response status bodyE =>
    if 400 ≤ status ∧ status < 600 then none
    else match bodyE with
      | Except.error _ => none
      | Except.ok b =>
        if jTruthy (b.okFlag.getD JVal.null) then some (b.results.getD [])
        else none

/-- rag_search (lines 87-115) with its attempt count: `for _ in range(2)`
returns the results of the first successful attempt; after two failed
attempts it logs and returns [].  `env i` is the outcome of the i-th POST.
The outbound JSON body carries query, int(top_k), float(threshold),
bool(include_text) and `filters or {}`; it does not influence the control
flow, so it is left to the oracle.  The `requests is None` guard (line 88) is
not modeled: the module is taken as importable. -/
def rag_searchRun (query : String) (top_k : Int) (threshold : Int)
    (include_text : Bool) (filters : JVal) (env : Nat → RagAttempt) :
    List SearchResult × Nat :=
  match rag_attempt (env 0) with
  | some rs => (rs, 1)
  | none =>
    match rag_attempt (env 1) with
    | some rs => (rs, 2)
    | none => ([], 2)

/-- rag_search's return value. -/
def rag_search (query : String) (top_k : Int) (threshold : Int)
    (include_text : Bool) (filters : JVal) (env : Nat → RagAttempt) :
    List SearchResult :=
  (rag_searchRun query top_k threshold include_text filters env).1

/-- Modelled from the spec: the claim's classification of a failed attempt
("a transport error, a non-2xx status, or a response whose success flag is
absent or false"), used to compare the spec's words with rag_attempt. -/
def specFailedAttempt (a : RagAttempt) : Bool :=
  match a with
  | RagAttempt.transportError _ => true
  | RagAttempt.response status bodyE =>
    if 200 ≤ status ∧ status < 300 then
      match bodyE with
      | Except.error _ => true
      | Except.ok b =>
        match b.okFlag with
        | none => true
        | some (JVal.bool false) => true
        | some _ => false
    else true

/-! ## chat_server.py: prompt composer (build_context, lines 139-154) -/

/-- The filename shown for a snippet: r.get("filename") or r.get("doc_id")
or "source" (line 144). -/
def fnOf (r : SearchResult) : String :=
  pyOrStr r.filename (pyOrStr r.doc_id "source")

/-- The excerpt shown for a snippet: (r.get("excerpt") or "").strip()
(line 145). -/
def exOf (r : SearchResult) : String :=
  pyStrip (pyOrStr r.excerpt "")

/-- One formatted snippet (lines 146-148): the [source: filename] header line
followed by the excerpt and a trailing newline. -/
def chunkOf (r : SearchResult) : String :=
  "[מקור: " ++ fnOf r ++ "]\n" ++ exOf r ++ "\n"

/-- Sum of the formatted lengths of a list of snippets. -/
def sumChunkLen (rs : List SearchResult) : Nat :=
  (rs.map (fun r => (chunkOf r).length)).sum

/-- The accumulation loop of build_context (lines 142-152): walk the results
in order; stop at the first snippet whose formatted length would push the
running total `used` past max_chars; otherwise append the snippet and add its
length to `used`. -/
def buildLoop (maxChars : Nat) : List SearchResult → Nat → List String
  | [], _ => []
  | r :: rest, used =>
    let chunk := chunkOf r
    if used + chunk.length > maxChars then []
    else chunk :: buildLoop maxChars rest (used + chunk.length)

/-- build_context (lines 139-154): a fixed placeholder when there are no
results, otherwise the accepted snippets joined with "\n". -/
def build_context (results : List SearchResult) (maxChars : Nat) : String :=
  if results = [] then "[אין הקשר ממקורות]"
  else pyJoin "\n" (buildLoop maxChars results 0)

/-! ## chat_server.py: LLM invoker (llm_answer, lines 167-202)

compose_messages (lines 157-163) only shapes the prompt sent to the LLM; the
LLM's behaviour is abstracted by the oracle below, so the prompt text does not
appear in the model. -/

/-- Oracle for one llm_answer invocation.  `primary` is the outcome of the
Responses-API block (client() creation plus responses.create plus reading
resp.output_text, which may be None); `fallback` is the outcome of the Chat
Completions block (client(), chat.completions.create, choices[0] indexing and
c.choices[0].message.content.strip()); usage extraction is best-effort and
yields optional prompt/completion token counts. -/
structure LlmEnv where
  primary : Except String (Option String)
  primaryUsage : Option (Option Int × Option Int)
  fallback : Except String String
  fallbackUsage : Option (Option Int × Option Int)

/-- The "tokens" value of a chat response: null, or an object with optional
prompt/completion counts (lines 183-184, 192-193). -/
def usageJson : Option (Option Int × Option Int) → JVal
  | none => JVal.null
  | some (p, c) => JVal.obj [("prompt", optNum p), ("completion", optNum c)]

/-- One "sources" entry of the non-streaming answer (lines 195-201). -/
def sourceEntry (r : SearchResult) : JVal :=
  JVal.obj [("doc_id", optStr r.doc_id), ("filename", optStr r.filename),
            ("score", optNum r.score), ("excerpt", optStr r.excerpt),
            ("tags", optTags r.tags)]

/-- Which completion calls an llm_answer invocation performed. -/
inductive LlmCall where
  | primary
  | fallback
deriving DecidableEq

/-- The successful llm_answer return value (line 202). -/
def answerBody (txt : String) (results : List SearchResult)
    (usage : Option (Option Int × Option Int)) : JVal :=
  JVal.obj [("ok", JVal.bool true), ("answer", JVal.str txt),
            ("sources", JVal.arr (results.map sourceEntry)),
            ("tokens", usageJson usage)]

/-- llm_answer (lines 167-202): when CHAT_USE_RESP is set, try the primary
Responses-API call, stripping (resp.output_text or ""); on any exception fall
back to the Chat Completions call.  When the flag is off, the code raises
RuntimeError("FORCE_FALLBACK") before any primary call, so only the fallback
runs.  An exception in the fallback block is not caught here: the result is
Except.error, to be handled by the HTTP layer.  The second component records
which calls were made. -/
def llm_answer (cfg : ChatConfig) (question : String)
    (results : List SearchResult) (env : LlmEnv) :
    Except String JVal × List LlmCall :=
  if cfg.chat_use_resp then
    match env.primary with
    | Except.ok t =>
      (Except.ok (answerBody (pyStrip (t.getD "")) results env.primaryUsage),
       [LlmCall.primary])
    | Except.error _ =>
      match env.fallback with
      | Except.ok t =>
        (Except.ok (answerBody t results env.fallbackUsage),
         [LlmCall.primary, LlmCall.fallback])
      | Except.error e => (Except.error e, [LlmCall.primary, LlmCall.fallback])
  else
    match env.fallback with
    | Except.ok t =>
      (Except.ok (answerBody t results env.fallbackUsage), [LlmCall.fallback])
    | Except.error e => (Except.error e, [LlmCall.fallback])

/-! ## chat_server.py: streaming invoker (llm_stream, lines 205-230) -/

/-- One item yielded by the llm_stream generator: a JSON-serialized frame on
its own line, a raw text fragment, or the bare trailing newline yielded after
a clean stream. -/
inductive StreamItem where
  | jsonLine (j : JVal)
  | text (s : String)
  | blank

/-- Oracle for the streaming completion: either
chat.completions.create(..., stream=True) itself raises, or it yields a
sequence of deltas (none models a chunk with no delta or no content; the
content string may be empty, which the code skips) followed, optionally, by
an exception raised during iteration. -/
inductive StreamOutcome where
  | createError (e : String)
  | chunks (deltas : List (Option String)) (midError : Option String)

/-- The exception terminating a stream, when there is one. -/
def streamErr : StreamOutcome → Option String
  | StreamOutcome.createError e => some e
  | StreamOutcome.chunks _ me => me

/-- The text fragments relayed for a delta sequence (lines 218-224: skip
chunks without a delta and deltas whose content is falsy). -/
def streamTexts (deltas : List (Option String)) : List StreamItem :=
  deltas.filterMap (fun d =>
    match d with
    | some s => if s = "" then none else some (StreamItem.text s)
    | none => none)

/-- One meta "sources" entry (line 211): only doc_id, filename and score. -/
def metaEntry (r : SearchResult) : JVal :=
  JVal.obj [("doc_id", optStr r.doc_id), ("filename", optStr r.filename),
            ("score", optNum r.score)]

/-- The leading meta frame (lines 211-213). -/
def metaFrame (results : List SearchResult) : JVal :=
  JVal.obj [("type", JVal.str "meta"),
            ("sources", JVal.arr (results.map metaEntry))]

/-- The in-stream error frame (lines 227-230; it is emitted preceded by a
newline so it stands on a line of its own). -/
def errorFrame (e : String) : JVal :=
  JVal.obj [("type", JVal.str "error"), ("detail", JVal.str e)]

/-- llm_stream (lines 205-230): first the meta line, then the relayed text
fragments, then either the bare trailing newline (clean stream) or a JSON
error frame (any exception during the completion call or the iteration is
caught and converted; text yielded before a mid-stream exception has already
been relayed). -/
def llm_stream (question : String) (results : List SearchResult)
    (env : StreamOutcome) : List StreamItem :=
  StreamItem.jsonLine (metaFrame results) ::
  (match env with
   | StreamOutcome.createError e => [StreamItem.jsonLine (errorFrame e)]
   | StreamOutcome.chunks ds none => streamTexts ds ++ [StreamItem.blank]
   | StreamOutcome.chunks ds (some e) =>
     streamTexts ds ++ [StreamItem.jsonLine (errorFrame e)])

/-! ## chat_server.py: HTTP front door (Handler, lines 233-328) -/

/-- An inbound HTTP request as the handler consumes it.  `path` is
urlparse(self.path).path.  `headers` are the raw (name, value) pairs in the
order received (a message may repeat a name).  `rawBody` is the
Content-Length-delimited body read by self.rfile.read; `jsonBody` is the
outcome of raw.decode("utf-8") followed by json.loads on it (the handler only
evaluates it on /api/chat; reading Content-Length, decoding or parsing may
each raise).  `queryQ`, `queryTopK` and `queryThreshold` are the q, top_k and
threshold query parameters of /api/chat/stream after parse_qs and the
int()/float() conversions of lines 274-276. -/
structure Request where
  path : String
  headers : List (String × String)
  rawBody : List Nat
  jsonBody : Except String JVal
  queryQ : String
  queryTopK : Int
  queryThreshold : Int

/-- self.headers.get(name): email.Message lookup is case-insensitive and
returns the first matching header. -/
def headerGet (hs : List (String × String)) (name : String) : Option String :=
  (hs.find? (fun kv => lowerName kv.1 == lowerName name)).map (fun kv => kv.2)

/-- Handler._auth_ok (lines 257-260): pass when no secret is configured,
otherwise compare self.headers.get("X-LOT-KEY", "") to the secret. -/
def auth_ok (cfg : ChatConfig) (req : Request) : Bool :=
  if cfg.chat_api_secret = "" then true
  else (headerGet req.headers "X-LOT-KEY").getD "" == cfg.chat_api_secret

/-- The CORS header block of Handler._send_headers (lines 238-245), present
exactly when allow_origin grants an origin. -/
def corsHeaders (corsAllow : List String) (origin : Option String) :
    List (String × String) :=
  match allow_origin corsAllow origin with
  | some a =>
    [("Access-Control-Allow-Origin", a), ("Vary", "Origin"),
     ("Access-Control-Allow-Credentials", "true"),
     ("Access-Control-Allow-Headers", "Content-Type, X-LOT-KEY"),
     ("Access-Control-Allow-Methods", "GET, POST, OPTIONS")]
  | none => []

/-- The header list written by Handler._send_headers (lines 236-251). -/
def sendHeaders (corsAllow : List String) (origin : Option String)
    (contentType : String) (extra : List (String × String)) :
    List (String × String) :=
  corsHeaders corsAllow origin ++
  [("Cache-Control", "no-cache"), ("Content-Type", contentType)] ++ extra

/-- A response body: JSON (written by _send_json), the static chat page, a
token stream, or nothing (OPTIONS). -/
inductive RespBody where
  | json (j : JVal)
  | page
  | stream (items : List StreamItem)
  | empty

/-- An HTTP response: status line, headers and body. -/
structure HttpResponse where
  status : Nat
  headers : List (String × String)
  body : RespBody

/-- A response whose headers come from _send_headers with the request's
Origin header and the configured allow-list. -/
def mkResp (cfg : ChatConfig) (req : Request) (status : Nat)
    (contentType : String) (extra : List (String × String))
    (body : RespBody) : HttpResponse :=
  { status := status,
    headers := sendHeaders (parseCorsAllow cfg.cors_allow_env)
      (headerGet req.headers "Origin") contentType extra,
    body := body }

/-- Handler._send_json (lines 253-255). -/
def send_json (cfg : ChatConfig) (req : Request) (j : JVal) (status : Nat) :
    HttpResponse :=
  mkResp cfg req status "application/json" [] (RespBody.json j)

/-- The outbound calls a handler performs while serving one request; the
upload proxy's entry records the body and header mapping it forwards. -/
inductive Effect where
  | ragSearch
  | llmAnswer
  | llmStreamCall
  | upstreamPost (body : List Nat) (headers : List (String × String))
deriving DecidableEq

/-- Oracle for the externals one request can touch: the vector-store search
attempts, the LLM invocations, the streaming completion, the upload POST to
VS_API_BASE + "/api/vs/index" (an error covers both a raised requests.post
and a failing r.json()), and time.time() for /health. -/
structure ServerEnv where
  rag : Nat → RagAttempt
  llm : LlmEnv
  stream : StreamOutcome
  upstream : Except String (Nat × JVal)
  time : Int

/-- The 401 body (lines 272, 296). -/
def unauthorizedBody : JVal := JVal.obj [("error", JVal.str "unauthorized")]

/-- The 404 body (lines 290, 328). -/
def notFoundBody : JVal := JVal.obj [("error", JVal.str "not_found")]

/-- The canned empty-question body (line 303). -/
def emptyQuestionBody : JVal :=
  JVal.obj [("ok", JVal.bool true), ("answer", JVal.str "שאלה ריקה."),
            ("sources", JVal.arr [])]

/-- The 500 body produced by the except blocks (lines 311, 327):
{"ok": False, "error": str(e)}. -/
def errBody (e : String) : JVal :=
  JVal.obj [("ok", JVal.bool false), ("error", JVal.str e)]

/-- The /health body (line 269). -/
def healthBody (cfg : ChatConfig) (t : Int) : JVal :=
  JVal.obj [("ok", JVal.bool true), ("time", JVal.num t),
            ("port", JVal.num cfg.port), ("model", JVal.str cfg.chat_model),
            ("vs", JVal.str cfg.vs_api_base)]

/-- Python int(x) on a decoded JSON value (used for body.get("top_k", ...)):
ints pass through, bools coerce, strings must be (stripped) integer literals,
anything else raises.  Decoded numbers are modeled as Int throughout. -/
def pyIntOf : JVal → Except String Int
  | JVal.num n => Except.ok n
  | JVal.bool b => Except.ok (if b then 1 else 0)
  | JVal.str s =>
    match (pyStrip s).toInt? with
    | some n => Except.ok n
    | none => Except.error "ValueError"
  | _ => Except.error "TypeError"

/-- Python float(x) on a decoded JSON value, at the same Int granularity. -/
def pyFloatOf : JVal → Except String Int
  | JVal.num n => Except.ok n
  | JVal.bool b => Except.ok (if b then 1 else 0)
  | JVal.str s =>
    match (pyStrip s).toInt? with
    | some n => Except.ok n
    | none => Except.error "ValueError"
  | _ => Except.error "TypeError"

/-- Line 301: q = (body.get("message") or "").strip().  A non-object body has
no .get attribute and raises; a truthy non-string message value has no .strip
attribute and raises; falsy values (absent, null, false, 0, "", empty
containers) degrade to the empty string. -/
def extractMessage : JVal → Except String String
  | JVal.obj fields =>
    let v := (jLookup fields "message").getD JVal.null
    if jTruthy v then
      match v with
      | JVal.str s => Except.ok (pyStrip s)
      | _ => Except.error "AttributeError"
    else Except.ok ""
  | _ => Except.error "AttributeError"

/-- Lines 304-306: top_k = int(body.get("top_k", TOP_K_DEFAULT)),
thr = float(body.get("threshold", THRESH_DEFAULT)),
filters = body.get("filters") or {}. -/
def extractParams (cfg : ChatConfig) (body : JVal) :
    Except String (Int × Int × JVal) :=
  match (match getField body "top_k" with
         | none => Except.ok cfg.top_k_default
         | some v => pyIntOf v) with
  | Except.error e => Except.error e
  | Except.ok tk =>
    match (match getField body "threshold" with
           | none => Except.ok cfg.thresh_default
           | some v => pyFloatOf v) with
    | Except.error e => Except.error e
    | Except.ok th =>
      let fv := (getField body "filters").getD JVal.null
      Except.ok (tk, th, if jTruthy fv then fv else JVal.obj [])

/-! ### Upload proxy header mapping (lines 320-323) -/

/-- Assignment into a Python dict rendered as a key-value list: replace the
value of an existing key in place, else append the pair. -/
def dictInsert : List (String × String) → String → String → List (String × String)
  | [], k, v => [(k, v)]
  | (k0, v0) :: rest, k, v =>
    if k0 = k then (k0, v) :: rest else (k0, v0) :: dictInsert rest k v

/-- Line 320: headers = {k: v for k, v in self.headers.items()} — the last
occurrence of each (exactly spelled) name wins. -/
def dictOfItems (hs : List (String × String)) : List (String × String) :=
  hs.foldl (fun d kv => dictInsert d kv.1 kv.2) []

/-- Line 321: headers.pop("Host", None). -/
def dictPop (d : List (String × String)) (k : String) :
    List (String × String) :=
  d.filter (fun kv => kv.1 != k)

/-- Key lookup in the rendered dict (first — and after dictOfItems only —
occurrence of the exact key). -/
def dictLookup (d : List (String × String)) (k : String) : Option String :=
  (d.find? (fun kv => kv.1 == k)).map (fun kv => kv.2)

/-- The value the request associates to a header name, under Python dict
construction order: the last exactly-matching occurrence. -/
def lastVal : List (String × String) → String → Option String
  | [], _ => none
  | (k0, v0) :: rest, k =>
    match lastVal rest k with
    | some v => some v
    | none => if k0 = k then some v0 else none

/-- The header mapping the upload proxy forwards (lines 320-323): collapse
the inbound headers into a dict, drop "Host", then overwrite "X-LOT-KEY"
with the configured key when one is set. -/
def fwdHeaders (cfg : ChatConfig) (req : Request) : List (String × String) :=
  let d := dictPop (dictOfItems req.headers) "Host"
  if cfg.vs_api_key = "" then d else dictInsert d "X-LOT-KEY" cfg.vs_api_key

/-- Handler.do_POST (lines 292-328).  Returns the response and the trace of
outbound calls.  The upload branch's `requests is None` guard (line 314) is
not modeled: the module is taken as importable. -/
def do_POST (cfg : ChatConfig) (req : Request) (env : ServerEnv) :
    HttpResponse × List Effect :=
  if req.path = "/api/chat" then
    if auth_ok cfg req then
      match req.jsonBody with
      | Except.error e => (send_json cfg req (errBody e) 500, [])
      | Except.ok body =>
        match extractMessage body with
        | Except.error e => (send_json cfg req (errBody e) 500, [])
        | Except.ok q =>
          if q = "" then (send_json cfg req emptyQuestionBody 200, [])
          else
            match extractParams cfg body with
            | Except.error e => (send_json cfg req (errBody e) 500, [])
            | Except.ok (tk, th, fl) =>
              match llm_answer cfg q (rag_search q tk th true fl env.rag)
                  env.llm with
              | (Except.ok j, _) =>
                (send_json cfg req j 200, [Effect.ragSearch, Effect.llmAnswer])
              | (Except.error e, _) =>
                (send_json cfg req (errBody e) 500,
                 [Effect.ragSearch, Effect.llmAnswer])
    else (send_json cfg req unauthorizedBody 401, [])
  else if req.path = "/api/upload" then
    let fwd := fwdHeaders cfg req
    match env.upstream with
    | Except.ok (st, j) =>
      (send_json cfg req j st, [Effect.upstreamPost req.rawBody fwd])
    | Except.error e =>
      (send_json cfg req (errBody e) 500,
       [Effect.upstreamPost req.rawBody fwd])
  else (send_json cfg req notFoundBody 404, [])

/-- Handler.do_GET (lines 266-290). -/
def do_GET (cfg : ChatConfig) (req : Request) (env : ServerEnv) :
    HttpResponse × List Effect :=
  if req.path = "/health" then
    (send_json cfg req (healthBody cfg env.time) 200, [])
  else if req.path = "/api/chat/stream" then
    if auth_ok cfg req then
      let q := pyStrip req.queryQ
      let results :=
        rag_search q req.queryTopK req.queryThreshold true JVal.null env.rag
      (mkResp cfg req 200 "text/plain; charset=utf-8"
         [("Connection", "keep-alive")]
         (RespBody.stream (llm_stream q results env.stream)),
       [Effect.ragSearch, Effect.llmStreamCall])
    else (send_json cfg req unauthorizedBody 401, [])
  else if req.path = "/chat" then
    (mkResp cfg req 200 "text/html; charset=utf-8" [] RespBody.page, [])
  else (send_json cfg req notFoundBody 404, [])

/-- Handler.do_OPTIONS (lines 263-264): bare headers, status 204. -/
def do_OPTIONS (cfg : ChatConfig) (req : Request) : HttpResponse × List Effect :=
  (mkResp cfg req 204 "application/json" [] RespBody.empty, [])

/-! ## Concrete configurations, requests and environments used by the
witnesses and counterexamples -/

/-- A baseline configuration matching the documented defaults. -/
def baseCfg : ChatConfig :=
  { chat_api_secret := "", vs_api_key := "", cors_allow_env := "",
    chat_use_resp := true, chat_model := "gpt-4o-mini",
    vs_api_base := "http://localhost:8003", port := 8004,
    top_k_default := 5, thresh_default := 0 }

/-- A baseline request. -/
def baseReq : Request :=
  { path := "/", headers := [], rawBody := [],
    jsonBody := Except.ok (JVal.obj []), queryQ := "", queryTopK := 5,
    queryThreshold := 0 }

/-- A baseline environment in which every external call fails. -/
def failEnv : ServerEnv :=
  { rag := fun _ => RagAttempt.transportError "down",
    llm := { primary := Except.error "down", primaryUsage := none,
             fallback := Except.error "down", fallbackUsage := none },
    stream := StreamOutcome.chunks [] none,
    upstream := Except.error "down", time := 0 }

/-- A deployment with a shared secret configured. -/
def c1cfg : ChatConfig := { baseCfg with chat_api_secret := "s3cret" }

/-- An upload request carrying no X-LOT-KEY header. -/
def c1req : Request :=
  { baseReq with
    path := "/api/upload",
    headers := [("Host", "example.com"),
                ("Content-Type", "multipart/form-data; boundary=x")],
    rawBody := [1, 2, 3] }

/-- The same unauthenticated request aimed at /api/chat instead. -/
def c1chatReq : Request := { c1req with path := "/api/chat" }

/-- An environment whose ingestion endpoint answers 200 {"ok": true}. -/
def c1env : ServerEnv :=
  { failEnv with upstream := Except.ok (200, JVal.obj [("ok", JVal.bool true)]) }

/-- A search result returned by the vector store. -/
def c2res : SearchResult :=
  { doc_id := some "d1", filename := some "f1", score := some 1,
    excerpt := some "text", tags := none }

/-- A transport oracle whose first attempt yields a 303 response carrying a
truthy success flag, and whose second attempt is a transport error. -/
def c2env : Nat → RagAttempt := fun i =>
  if i = 0 then
    RagAttempt.response 303
      (Except.ok { okFlag := some (JVal.bool true), results := some [c2res] })
  else RagAttempt.transportError "connection refused"

/-- A snippet whose formatted chunk is as short as possible: one-character
filename, empty excerpt (chunk length 11). -/
def c3r : SearchResult :=
  { doc_id := none, filename := some "a", score := none, excerpt := some "",
    tags := none }

/-- Thirteen such snippets; with max_chars = 143 all thirteen are accepted
(13 * 11 = 143) and the join inserts 12 separator newlines. -/
def c3rs : List SearchResult := List.replicate 13 c3r

/-- A deployment whose feature flag deselects the primary LLM mode. -/
def w5cfg : ChatConfig := { baseCfg with chat_use_resp := false }

/-- An LLM oracle whose fallback invocation raises. -/
def w5llm : LlmEnv :=
  { primary := Except.ok (some "unused"), primaryUsage := none,
    fallback := Except.error "boom", fallbackUsage := none }

/-- A well-formed chat request with a non-empty message. -/
def w5req : Request :=
  { baseReq with
    path := "/api/chat",
    jsonBody := Except.ok (JVal.obj [("message", JVal.str "hi")]) }

/-- The failing-fallback environment. -/
def w5env : ServerEnv := { failEnv with llm := w5llm }

/-- A chat request whose JSON body lacks a message field. -/
def w6req : Request := { baseReq with path := "/api/chat" }

/-- A chat request whose body fails to parse as JSON. -/
def w6reqBad : Request :=
  { baseReq with
    path := "/api/chat",
    jsonBody := Except.error "Expecting value: line 1 column 1 (char 0)" }

/-- A deployment with a one-entry CORS allow-list. -/
def w7cfg : ChatConfig := { baseCfg with cors_allow_env := "https://good.example" }

/-- A request from the listed origin. -/
def w7reqGood : Request :=
  { baseReq with headers := [("Origin", "https://good.example")] }

/-- A request from an unlisted origin. -/
def w7reqEvil : Request :=
  { baseReq with headers := [("Origin", "https://evil.example")] }

/-- An upload request that repeats a header name. -/
def c8req : Request :=
  { baseReq with
    path := "/api/upload",
    headers := [("X-Dup", "a"), ("X-Dup", "b"), ("Host", "example.com")],
    rawBody := [0] }

/-- An environment whose ingestion endpoint answers 201 {"ok": true}. -/
def c8env : ServerEnv :=
  { failEnv with upstream := Except.ok (201, JVal.obj [("ok", JVal.bool true)]) }

/-- A request carrying some Origin, aimed at a wildcard-CORS deployment. -/
def w10req : Request :=
  { baseReq with headers := [("Origin", "https://evil.example")] }

/-! ## Theorems -/

/-- For an if-then-else between two distinct strings, equality with either
branch characterizes the condition. -/
theorem ite_string_cases {c : Prop} [Decidable c] {s t : String} (hst : s ≠ t) :
    ((if c then s else t) = s ↔ c) ∧ ((if c then s else t) = t ↔ ¬c) := by
  by_cases hc : c <;> simp [hc, hst, Ne.symm hst]

/-- Claim C9: the planning agent's static lookup tools are deterministic
total functions; get_parcels_by_zoning returns its hardcoded parcel-and-plan
answer iff the city/zoning pair is the hardcoded one and the not-found string
otherwise, and get_plan_details returns its hardcoded summary iff the plan
number is "100/1" and the not-found string otherwise. -/
theorem c9_static_lookups (city zoning_type plan_number : String) :
    (get_parcels_by_zoning city zoning_type =
        "המגרשים 123, 456 נמצאים באזור תעשייה בבאר שבע, תכניות בניין עיר: 100/1, 200/2." ↔
      (city = "באר שבע" ∧ zoning_type = "אזור תעשייה")) ∧
    (get_parcels_by_zoning city zoning_type =
        "לא נמצאו מגרשים התואמים לקריטריונים." ↔
      ¬(city = "באר שבע" ∧ zoning_type = "אזור תעשייה")) ∧
    (get_plan_details plan_number =
        "תכנית 100/1 מיועדת לאזור תעשייה, מאפשרת 500% זכויות בניה, מטרות: הרחבת אזור תעשייה קיים." ↔
      plan_number = "100/1") ∧
    (get_plan_details plan_number = "לא נמצאו פרטים לתכנית זו." ↔
      plan_number ≠ "100/1") := by
  have h1 := ite_string_cases
    (c := city = "באר שבע" ∧ zoning_type = "אזור תעשייה")
    (s := "המגרשים 123, 456 נמצאים באזור תעשייה בבאר שבע, תכניות בניין עיר: 100/1, 200/2.")
    (t := "לא נמצאו מגרשים התואמים לקריטריונים.") (by decide)
  have h2 := ite_string_cases (c := plan_number = "100/1")
    (s := "תכנית 100/1 מיועדת לאזור תעשייה, מאפשרת 500% זכויות בניה, מטרות: הרחבת אזור תעשייה קיים.")
    (t := "לא נמצאו פרטים לתכנית זו.") (by decide)
  exact ⟨h1.1, h1.2, h2.1, h2.2⟩

/-- Claim C2 (amended): rag_search makes at most two attempts against the
vector store and, when both attempts fail, returns the empty sequence; an
attempt fails exactly when the transport raised, the HTTP status was in
400..599 (raise_for_status), the body failed to decode as JSON, or the
decoded body's success flag is absent or not truthy — statuses outside
400..599, 3xx included, fall through to the success-flag test. -/
theorem c2_rag_search_retry (query : String) (top_k threshold : Int)
    (include_text : Bool) (filters : JVal) (env : Nat → RagAttempt) :
    (rag_searchRun query top_k threshold include_text filters env).2 ≤ 2 ∧
    (∀ a : RagAttempt, rag_attempt a = none ↔
       ((∃ e, a = RagAttempt.transportError e) ∨
        (∃ st b, a = RagAttempt.response st b ∧ 400 ≤ st ∧ st < 600) ∨
        (∃ st e, a = RagAttempt.response st (Except.error e) ∧
          ¬(400 ≤ st ∧ st < 600)) ∨
        (∃ st b, a = RagAttempt.response st (Except.ok b) ∧
          ¬(400 ≤ st ∧ st < 600) ∧
          jTruthy (b.okFlag.getD JVal.null) = false))) ∧
    (rag_attempt (env 0) = none ∧ rag_attempt (env 1) = none →
       rag_search query top_k threshold include_text filters env = []) := by
  refine ⟨?_, ?_, ?_⟩
  · unfold rag_searchRun
    cases rag_attempt (env 0) <;> cases rag_attempt (env 1) <;> simp
  · intro a
    cases a with
    | transportError e => simp [rag_attempt]
    | response st bodyE =>
      by_cases h : 400 ≤ st ∧ st < 600
      · simp [rag_attempt, h]
      · cases bodyE with
        | error e =>
          simp [rag_attempt, h]
          omega
        | ok b =>
          by_cases hf : jTruthy (b.okFlag.getD JVal.null)
          · simp [rag_attempt, h, hf]
          · simp [rag_attempt, h, hf]
            exact ⟨st, b, ⟨rfl, rfl⟩, by omega, by simpa using hf⟩
  · rintro ⟨h0, h1⟩
    simp [rag_search, rag_searchRun, h0, h1]

/-- Claim C2 counterexample: under the claim's own failure classification
(specFailedAttempt, written from the spec's words), both attempts of this run
fail — the first because its status, 303, is not 2xx — yet rag_search
returns a non-empty sequence from that first attempt, since raise_for_status
only raises for 4xx/5xx and the body's success flag is truthy. -/
theorem c2_counterexample :
    specFailedAttempt (c2env 0) = true ∧ specFailedAttempt (c2env 1) = true ∧
    rag_search "q" 5 0 true JVal.null c2env = [c2res] ∧
    rag_search "q" 5 0 true JVal.null c2env ≠ [] := by
  have hval : rag_search "q" 5 0 true JVal.null c2env = [c2res] := rfl
  refine ⟨rfl, rfl, hval, ?_⟩
  rw [hval]
  decide

/-- Claim C1 (code bug demonstration): with CHAT_API_SECRET configured and no
X-LOT-KEY header, the auth check fails, yet POST /api/upload never consults
it — the request is proxied upstream and the upstream 200 response is
relayed, not a 401 — while the same credentials against POST /api/chat are
rejected with 401 and trigger no outbound call. -/
theorem c1_upload_auth_gap :
    auth_ok c1cfg c1req = false ∧
    (do_POST c1cfg c1req c1env).1.status = 200 ∧
    (do_POST c1cfg c1req c1env).1.body =
      RespBody.json (JVal.obj [("ok", JVal.bool true)]) ∧
    (do_POST c1cfg c1req c1env).2 =
      [Effect.upstreamPost [1, 2, 3]
        [("Content-Type", "multipart/form-data; boundary=x")]] ∧
    (do_POST c1cfg c1chatReq c1env).1.status = 401 ∧
    (do_POST c1cfg c1chatReq c1env).1.body = RespBody.json unauthorizedBody ∧
    (do_POST c1cfg c1chatReq c1env).2 = [] := by
  refine ⟨by decide, by decide, by rfl, by decide, by decide, by rfl, by decide⟩

/-- Length of a newline-join: the summed lengths plus one separator between
consecutive parts. -/
theorem pyJoin_length (l : List String) :
    (pyJoin "\n" l).length = (l.map String.length).sum + (l.length - 1) := by
  induction l with
  | nil => rfl
  | cons x xs ih =>
    cases xs with
    | nil => simp [pyJoin]
    | cons y ys =>
      have hnl : ("\n" : String).length = 1 := rfl
      simp only [pyJoin] at ih ⊢
      rw [String.length_append, String.length_append, hnl, ih]
      simp only [List.map_cons, List.sum_cons, List.length_cons]
      omega

theorem sumChunkLen_nil : sumChunkLen [] = 0 := rfl

theorem sumChunkLen_cons (r : SearchResult) (l : List SearchResult) :
    sumChunkLen (r :: l) = (chunkOf r).length + sumChunkLen l := by
  simp [sumChunkLen]

/-- The build_context loop returns the formatted snippets of the longest
prefix whose cumulative formatted length stays within the budget: every
accepted prefix fits, and the first rejected snippet (when one exists) would
overflow. -/
theorem buildLoop_spec (m : Nat) (rs : List SearchResult) (used : Nat) :
    ∃ k, k ≤ rs.length ∧
      buildLoop m rs used = (rs.take k).map chunkOf ∧
      (∀ j, j < k → used + sumChunkLen (rs.take (j + 1)) ≤ m) ∧
      (k < rs.length → m < used + sumChunkLen (rs.take (k + 1))) := by
  induction rs generalizing used with
  | nil => exact ⟨0, by simp, rfl, by simp, by simp⟩
  | cons r rest ih =>
    by_cases h : used + (chunkOf r).length > m
    · refine ⟨0, by simp, by simp [buildLoop, h], by simp, ?_⟩
      intro _
      simp only [List.take_succ_cons, List.take_zero, sumChunkLen_cons,
        sumChunkLen_nil]
      omega
    · push_neg at h
      obtain ⟨k, hk, heq, hacc, hstop⟩ := ih (used + (chunkOf r).length)
      have hcond : ¬(used + (chunkOf r).length > m) := by omega
      refine ⟨k + 1, by simpa using Nat.succ_le_succ hk, ?_, ?_, ?_⟩
      · simp [buildLoop, hcond, heq]
      · intro j hj
        cases j with
        | zero =>
          simp only [List.take_succ_cons, List.take_zero, sumChunkLen_cons,
            sumChunkLen_nil]
          omega
        | succ j' =>
          have hja := hacc j' (by omega)
          simp only [List.take_succ_cons, sumChunkLen_cons] at hja ⊢
          omega
      · intro hlt
        have hs := hstop (by simpa using Nat.lt_of_succ_lt_succ hlt)
        simp only [List.take_succ_cons, sumChunkLen_cons] at hs ⊢
        omega

/-- Claim C3 (amended): for a non-empty result list, the snippets of
build_context are exactly the order-preserving prefix-by-budget of the input
— each included snippet formatted by chunkOf, accumulation stopping at the
first snippet that would push the running total past max_chars — and the
returned string's length is at most max_chars plus (number of included
snippets - 1), the extra characters being the join's separator newlines,
which the budget accounting does not count (rather than at most max_chars
plus one chunk's overshoot). -/
theorem c3_build_context_budget (rs : List SearchResult) (m : Nat)
    (hne : rs ≠ []) :
    ∃ k, k ≤ rs.length ∧
      build_context rs m = pyJoin "\n" ((rs.take k).map chunkOf) ∧
      sumChunkLen (rs.take k) ≤ m ∧
      (k < rs.length → m < sumChunkLen (rs.take (k + 1))) ∧
      (build_context rs m).length ≤ m + (k - 1) := by
  obtain ⟨k, hk, heq, hacc, hstop⟩ := buildLoop_spec m rs 0
  have hval : build_context rs m = pyJoin "\n" ((rs.take k).map chunkOf) := by
    simp [build_context, hne, heq]
  have hsum : sumChunkLen (rs.take k) ≤ m := by
    cases k with
    | zero => simp [sumChunkLen]
    | succ k' => simpa using hacc k' (by omega)
  refine ⟨k, hk, hval, hsum, fun hlt => by simpa using hstop hlt, ?_⟩
  rw [hval, pyJoin_length]
  have hmap : (((rs.take k).map chunkOf).map String.length).sum =
      sumChunkLen (rs.take k) := by
    simp [sumChunkLen, List.map_map]
    rfl
  have hlen : ((rs.take k).map chunkOf).length ≤ k := by
    simp [List.length_take]
  omega

/-- Claim C3 counterexample: thirteen snippets of formatted length 11 all fit
a budget of 143 (13 * 11 = 143), yet the returned string has length 155
because the join inserts 12 uncounted separator newlines — exceeding the
budget plus one chunk's length (143 + 11 = 154), so no reading of "one
chunk's overshoot allowance" bounds the result. -/
theorem c3_counterexample :
    (∀ r ∈ c3rs, (chunkOf r).length = 11) ∧
    (build_context c3rs 143).length = 155 ∧
    ¬((build_context c3rs 143).length ≤ 143 + 11) := by
  exact ⟨by decide, by decide, by decide⟩

/-- Witness for c3_build_context_budget at the concrete thirteen-snippet
input and budget 143. -/
theorem c3_budget_witness :
    ∃ k, k ≤ c3rs.length ∧
      build_context c3rs 143 = pyJoin "\n" ((c3rs.take k).map chunkOf) ∧
      sumChunkLen (c3rs.take k) ≤ 143 ∧
      (k < c3rs.length → 143 < sumChunkLen (c3rs.take (k + 1))) ∧
      (build_context c3rs 143).length ≤ 143 + (k - 1) :=
  c3_build_context_budget c3rs 143 (by decide)

/-- Everything streamTexts relays is a raw text fragment. -/
theorem streamTexts_text (ds : List (Option String)) :
    ∀ x ∈ streamTexts ds, ∃ t, x = StreamItem.text t := by
  intro x hx
  obtain ⟨d, hd, hfd⟩ := List.mem_filterMap.mp hx
  cases d with
  | none => simp at hfd
  | some s =>
    by_cases hs : s = ""
    · simp [hs] at hfd
    · simp only [hs, if_false, ite_false] at hfd
      exact ⟨s, by injection hfd with h; exact h.symm⟩

/-- Claim C4: every llm_stream output starts with a JSON line whose type is
"meta" and whose sources array has one entry per RAG result, each entry
carrying exactly the doc_id, filename and score fields; every item between
that line and the terminal item is a raw text fragment; and the terminal item
is the bare newline for a clean stream, or — whenever the completion call or
the iteration raises — a JSON error frame, emitted instead of propagating
the exception. -/
theorem c4_stream_grammar (q : String) (rs : List SearchResult)
    (env : StreamOutcome) :
    ∃ j rest, llm_stream q rs env = StreamItem.jsonLine j :: rest ∧
      getField j "type" = some (JVal.str "meta") ∧
      (∃ srcs, getField j "sources" = some (JVal.arr srcs) ∧
        srcs.length = rs.length ∧
        ∀ s ∈ srcs, ∃ a b c,
          s = JVal.obj [("doc_id", a), ("filename", b), ("score", c)]) ∧
      (∀ x ∈ rest.dropLast, ∃ t, x = StreamItem.text t) ∧
      rest.getLast? = some (match streamErr env with
        | some e => StreamItem.jsonLine (errorFrame e)
        | none => StreamItem.blank) := by
  refine ⟨metaFrame rs, _, rfl, rfl, ⟨rs.map metaEntry, rfl, by simp, ?_⟩,
    ?_, ?_⟩
  · intro s hs
    obtain ⟨r, _, rfl⟩ := List.mem_map.mp hs
    exact ⟨optStr r.doc_id, optStr r.filename, optNum r.score, rfl⟩
  · cases env with
    | createError e => simp
    | chunks ds me =>
      cases me with
      | none =>
        intro x hx
        rw [List.dropLast_concat] at hx
        exact streamTexts_text ds x hx
      | some e =>
        intro x hx
        rw [List.dropLast_concat] at hx
        exact streamTexts_text ds x hx
  · cases env with
    | createError e => rfl
    | chunks ds me =>
      cases me with
      | none => simp [streamErr, List.getLast?_concat]
      | some e => simp [streamErr, List.getLast?_concat]

/-- Whenever the flag deselects the primary mode or the primary call raised,
llm_answer performs the fallback invocation. -/
theorem llm_answer_fallback_called (cfg : ChatConfig) (q : String)
    (rs : List SearchResult) (env : LlmEnv)
    (hsel : cfg.chat_use_resp = false ∨ ∃ err, env.primary = Except.error err) :
    LlmCall.fallback ∈ (llm_answer cfg q rs env).2 := by
  by_cases hr : cfg.chat_use_resp = true
  · rcases hsel with hflag | ⟨err, hp⟩
    · simp [hflag] at hr
    · cases hf : env.fallback <;> simp [llm_answer, hr, hp, hf]
  · have hr' : cfg.chat_use_resp = false := by simpa using hr
    cases hf : env.fallback <;> simp [llm_answer, hr', hf]

/-- Whenever the fallback runs and raises, llm_answer returns that error
uncaught. -/
theorem llm_answer_fallback_error (cfg : ChatConfig) (q : String)
    (rs : List SearchResult) (env : LlmEnv)
    (hsel : cfg.chat_use_resp = false ∨ ∃ err, env.primary = Except.error err)
    (e : String) (hf : env.fallback = Except.error e) :
    ∃ calls, llm_answer cfg q rs env = (Except.error e, calls) ∧
      LlmCall.fallback ∈ calls := by
  by_cases hr : cfg.chat_use_resp = true
  · rcases hsel with hflag | ⟨err, hp⟩
    · simp [hflag] at hr
    · exact ⟨[LlmCall.primary, LlmCall.fallback],
        by simp [llm_answer, hr, hp, hf], by simp⟩
  · have hr' : cfg.chat_use_resp = false := by simpa using hr
    exact ⟨[LlmCall.fallback], by simp [llm_answer, hr', hf], by simp⟩

/-- Claim C5: when the primary responses-style invocation raises or the
feature flag deselects it, the fallback chat-completion invocation is
performed instead; an exception from the fallback is not caught inside
llm_answer, and the /api/chat handler converts it into a status-500 JSON
body {"ok": false, "error": ...}. -/
theorem c5_fallback (cfg : ChatConfig) (q : String) (rs : List SearchResult)
    (env : LlmEnv)
    (hsel : cfg.chat_use_resp = false ∨ ∃ err, env.primary = Except.error err) :
    LlmCall.fallback ∈ (llm_answer cfg q rs env).2 ∧
    (cfg.chat_use_resp = false → LlmCall.primary ∉ (llm_answer cfg q rs env).2) ∧
    (∀ e, env.fallback = Except.error e →
       (llm_answer cfg q rs env).1 = Except.error e) ∧
    (∀ (req : Request) (senv : ServerEnv) (body : JVal) (tk th : Int)
       (fl : JVal) (e : String),
       req.path = "/api/chat" → auth_ok cfg req = true →
       req.jsonBody = Except.ok body → extractMessage body = Except.ok q →
       q ≠ "" → extractParams cfg body = Except.ok (tk, th, fl) →
       senv.llm = env → env.fallback = Except.error e →
       rag_search q tk th true fl senv.rag = rs →
       (do_POST cfg req senv).1.status = 500 ∧
       (do_POST cfg req senv).1.body = RespBody.json (errBody e) ∧
       (do_POST cfg req senv).2 = [Effect.ragSearch, Effect.llmAnswer]) := by
  refine ⟨llm_answer_fallback_called cfg q rs env hsel, ?_, ?_, ?_⟩
  · intro hflag
    cases hf : env.fallback <;> simp [llm_answer, hflag, hf]
  · intro e hf
    obtain ⟨calls, hcalls, _⟩ := llm_answer_fallback_error cfg q rs env hsel e hf
    rw [hcalls]
  · intro req senv body tk th fl e h1 h2 h3 h4 h5 h6 h7 h8 h9
    obtain ⟨calls, hcalls, _⟩ := llm_answer_fallback_error cfg q rs env hsel e h8
    have hstep : do_POST cfg req senv =
        (send_json cfg req (errBody e) 500,
         [Effect.ragSearch, Effect.llmAnswer]) := by
      simp only [do_POST, h1, h2, h3, h4, h6, h7, h9, h5, hcalls,
        eq_self_iff_true, if_true, ite_true, ite_false, if_false]
    rw [hstep]
    exact ⟨rfl, rfl, rfl⟩

/-- Witness for c5_fallback: flag off, fallback raising "boom", applied to a
concrete authenticated /api/chat request. -/
theorem c5_fallback_witness :
    LlmCall.fallback ∈ (llm_answer w5cfg "hi" [] w5llm).2 ∧
    LlmCall.primary ∉ (llm_answer w5cfg "hi" [] w5llm).2 ∧
    (llm_answer w5cfg "hi" [] w5llm).1 = Except.error "boom" ∧
    ((do_POST w5cfg w5req w5env).1.status = 500 ∧
     (do_POST w5cfg w5req w5env).1.body = RespBody.json (errBody "boom") ∧
     (do_POST w5cfg w5req w5env).2 = [Effect.ragSearch, Effect.llmAnswer]) := by
  have h := c5_fallback w5cfg "hi" [] w5llm (Or.inl rfl)
  exact ⟨h.1, h.2.1 rfl, h.2.2.1 "boom" rfl,
    h.2.2.2 w5req w5env (JVal.obj [("message", JVal.str "hi")]) 5 0
      (JVal.obj []) "boom" rfl rfl rfl rfl (by decide) rfl rfl rfl rfl⟩

/-- An object body whose message key is absent, null, or a whitespace-only
string makes line 301 produce the empty question. -/
theorem extractMessage_empty (fields : List (String × JVal))
    (hdis : jLookup fields "message" = none ∨
      jLookup fields "message" = some JVal.null ∨
      (∃ s, jLookup fields "message" = some (JVal.str s) ∧ pyStrip s = "")) :
    extractMessage (JVal.obj fields) = Except.ok "" := by
  rcases hdis with h | h | ⟨s, hs, hstrip⟩
  · simp [extractMessage, h, jTruthy]
  · simp [extractMessage, h, jTruthy]
  · by_cases hse : s = ""
    · simp [extractMessage, hs, jTruthy, hse]
    · simp [extractMessage, hs, jTruthy, hse, hstrip]

/-- Claim C6: an authenticated POST /api/chat whose JSON object body has a
message field that is absent, null, or whitespace-only is answered 200 with
the canned empty-question body and triggers no RAG or LLM call; and a body
whose decoding or JSON parsing raises is answered 500 with the error text. -/
theorem c6_empty_message (cfg : ChatConfig) (req : Request) (env : ServerEnv)
    (h1 : req.path = "/api/chat") (h2 : auth_ok cfg req = true) :
    (∀ fields : List (String × JVal),
       req.jsonBody = Except.ok (JVal.obj fields) →
       (jLookup fields "message" = none ∨
        jLookup fields "message" = some JVal.null ∨
        (∃ s, jLookup fields "message" = some (JVal.str s) ∧ pyStrip s = "")) →
       (do_POST cfg req env).1.status = 200 ∧
       (do_POST cfg req env).1.body = RespBody.json (JVal.obj
         [("ok", JVal.bool true), ("answer", JVal.str "שאלה ריקה."),
          ("sources", JVal.arr [])]) ∧
       (do_POST cfg req env).2 = []) ∧
    (∀ e, req.jsonBody = Except.error e →
       (do_POST cfg req env).1.status = 500 ∧
       (do_POST cfg req env).1.body = RespBody.json (errBody e) ∧
       (do_POST cfg req env).2 = []) := by
  constructor
  · intro fields h3 hdis
    have hmsg := extractMessage_empty fields hdis
    have hstep : do_POST cfg req env =
        (send_json cfg req emptyQuestionBody 200, []) := by
      simp only [do_POST, h1, h2, h3, hmsg, eq_self_iff_true, if_true,
        ite_true]
    rw [hstep]
    exact ⟨rfl, rfl, rfl⟩
  · intro e h3
    have hstep : do_POST cfg req env =
        (send_json cfg req (errBody e) 500, []) := by
      simp only [do_POST, h1, h2, h3, eq_self_iff_true, if_true, ite_true]
    rw [hstep]
    exact ⟨rfl, rfl, rfl⟩

/-- Witness for c6_empty_message: a body without a message field gets the
canned answer with no outbound calls; an unparsable body gets a 500. -/
theorem c6_empty_message_witness :
    ((do_POST baseCfg w6req failEnv).1.status = 200 ∧
     (do_POST baseCfg w6req failEnv).1.body = RespBody.json (JVal.obj
       [("ok", JVal.bool true), ("answer", JVal.str "שאלה ריקה."),
        ("sources", JVal.arr [])]) ∧
     (do_POST baseCfg w6req failEnv).2 = []) ∧
    ((do_POST baseCfg w6reqBad failEnv).1.status = 500 ∧
     (do_POST baseCfg w6reqBad failEnv).1.body =
       RespBody.json (errBody "Expecting value: line 1 column 1 (char 0)") ∧
     (do_POST baseCfg w6reqBad failEnv).2 = []) :=
  ⟨(c6_empty_message baseCfg w6req failEnv rfl rfl).1 [] rfl (Or.inl rfl),
   (c6_empty_message baseCfg w6reqBad failEnv rfl rfl).2
     "Expecting value: line 1 column 1 (char 0)" rfl⟩

/-- Entries of a configured allow-list are never empty (the parser filters
falsy entries out). -/
theorem parseCors_mem_ne (s o : String) (h : o ∈ parseCorsAllow s) :
    o ≠ "" := by
  simp only [parseCorsAllow, List.mem_filter] at h
  simpa using h.2

/-- When allow_origin grants a value, _send_headers carries it as the
Access-Control-Allow-Origin header. -/
theorem sendHeaders_acao_some (cors : List String) (origin : Option String)
    (ct : String) (extra : List (String × String)) (a : String)
    (h : allow_origin cors origin = some a) :
    dictLookup (sendHeaders cors origin ct extra)
      "Access-Control-Allow-Origin" = some a := by
  simp [sendHeaders, corsHeaders, h, dictLookup]

/-- When allow_origin grants a value, _send_headers sends
Access-Control-Allow-Credentials: true alongside it. -/
theorem sendHeaders_acac_some (cors : List String) (origin : Option String)
    (ct : String) (extra : List (String × String)) (a : String)
    (h : allow_origin cors origin = some a) :
    dictLookup (sendHeaders cors origin ct extra)
      "Access-Control-Allow-Credentials" = some "true" := by
  simp [sendHeaders, corsHeaders, h, dictLookup]

/-- When allow_origin denies, no Access-Control-Allow-Origin header is sent
(provided, as in every branch of the handler, the extra headers do not smuggle
one in). -/
theorem sendHeaders_acao_none (cors : List String) (origin : Option String)
    (ct : String) (extra : List (String × String))
    (hx : dictLookup extra "Access-Control-Allow-Origin" = none)
    (h : allow_origin cors origin = none) :
    dictLookup (sendHeaders cors origin ct extra)
      "Access-Control-Allow-Origin" = none := by
  simp only [dictLookup, List.find?_append] at hx ⊢
  simp [sendHeaders, corsHeaders, h, hx]

/-- Every response of every route carries exactly the _send_headers header
block, with extras that never name a CORS header. -/
theorem resp_headers_shape (cfg : ChatConfig) (req : Request) (env : ServerEnv) :
    ∀ resp ∈ [(do_GET cfg req env).1, (do_POST cfg req env).1,
              (do_OPTIONS cfg req).1],
      ∃ ct extra,
        dictLookup extra "Access-Control-Allow-Origin" = none ∧
        dictLookup extra "Access-Control-Allow-Credentials" = none ∧
        resp.headers = sendHeaders (parseCorsAllow cfg.cors_allow_env)
          (headerGet req.headers "Origin") ct extra := by
  intro resp hresp
  simp only [List.mem_cons, List.not_mem_nil, or_false] at hresp
  rcases hresp with h | h | h <;> subst h
  · unfold do_GET
    split
    · exact ⟨"application/json", [], rfl, rfl, rfl⟩
    · split
      · split
        · exact ⟨"text/plain; charset=utf-8", [("Connection", "keep-alive")],
            rfl, rfl, rfl⟩
        · exact ⟨"application/json", [], rfl, rfl, rfl⟩
      · split
        · exact ⟨"text/html; charset=utf-8", [], rfl, rfl, rfl⟩
        · exact ⟨"application/json", [], rfl, rfl, rfl⟩
  · unfold do_POST
    repeat' split
    all_goals exact ⟨"application/json", [], rfl, rfl, rfl⟩
  · exact ⟨"application/json", [], rfl, rfl, rfl⟩

/-- Claim C7: with a non-empty CORS allow-list configured, a response on any
route carries no Access-Control-Allow-Origin header when the request's
Origin is absent or unlisted, and echoes exactly the request's Origin when it
is listed. -/
theorem c7_cors_allowlist (cfg : ChatConfig) (req : Request) (env : ServerEnv)
    (h : parseCorsAllow cfg.cors_allow_env ≠ []) :
    ∀ resp ∈ [(do_GET cfg req env).1, (do_POST cfg req env).1,
              (do_OPTIONS cfg req).1],
      ((headerGet req.headers "Origin" = none ∨
        ∃ o, headerGet req.headers "Origin" = some o ∧
          o ∉ parseCorsAllow cfg.cors_allow_env) →
        dictLookup resp.headers "Access-Control-Allow-Origin" = none) ∧
      (∀ o, headerGet req.headers "Origin" = some o →
        o ∈ parseCorsAllow cfg.cors_allow_env →
        dictLookup resp.headers "Access-Control-Allow-Origin" = some o) := by
  intro resp hresp
  obtain ⟨ct, extra, hx1, hx2, hh⟩ := resp_headers_shape cfg req env resp hresp
  constructor
  · intro hor
    rw [hh]
    apply sendHeaders_acao_none _ _ _ _ hx1
    rcases hor with hnone | ⟨o, ho, hmem⟩
    · simp [allow_origin, h, hnone]
    · simp [allow_origin, h, ho, hmem]
  · intro o ho hmem
    rw [hh]
    apply sendHeaders_acao_some
    simp [allow_origin, h, ho, hmem, parseCors_mem_ne _ _ hmem]

/-- Witness for c7_cors_allowlist: with CORS_ALLOW_ORIGINS set to
https://good.example, an Origin of https://evil.example receives no
Access-Control-Allow-Origin header while the listed origin is echoed back. -/
theorem c7_cors_allowlist_witness :
    dictLookup ((do_GET w7cfg w7reqEvil failEnv).1).headers
      "Access-Control-Allow-Origin" = none ∧
    dictLookup ((do_GET w7cfg w7reqGood failEnv).1).headers
      "Access-Control-Allow-Origin" = some "https://good.example" := by
  constructor
  · exact (c7_cors_allowlist w7cfg w7reqEvil failEnv (by decide)
      ((do_GET w7cfg w7reqEvil failEnv).1) (by simp)).1
      (Or.inr ⟨"https://evil.example", rfl, by decide⟩)
  · exact (c7_cors_allowlist w7cfg w7reqGood failEnv (by decide)
      ((do_GET w7cfg w7reqGood failEnv).1) (by simp)).2
      "https://good.example" rfl (by decide)

/-- Claim C10: with the CORS allow-list unconfigured, every response on every
route carries Access-Control-Allow-Origin: * together with
Access-Control-Allow-Credentials: true, whatever the request's Origin. -/
theorem c10_cors_wildcard (cfg : ChatConfig) (req : Request) (env : ServerEnv)
    (h : parseCorsAllow cfg.cors_allow_env = []) :
    ∀ resp ∈ [(do_GET cfg req env).1, (do_POST cfg req env).1,
              (do_OPTIONS cfg req).1],
      dictLookup resp.headers "Access-Control-Allow-Origin" = some "*" ∧
      dictLookup resp.headers "Access-Control-Allow-Credentials" =
        some "true" := by
  intro resp hresp
  obtain ⟨ct, extra, hx1, hx2, hh⟩ := resp_headers_shape cfg req env resp hresp
  have hallow : allow_origin (parseCorsAllow cfg.cors_allow_env)
      (headerGet req.headers "Origin") = some "*" := by
    simp [allow_origin, h]
  rw [hh]
  exact ⟨sendHeaders_acao_some _ _ _ _ _ hallow,
         sendHeaders_acac_some _ _ _ _ _ hallow⟩

/-- Witness for c10_cors_wildcard: the default (empty) allow-list with an
arbitrary Origin, on each of the three dispatchers. -/
theorem c10_cors_wildcard_witness :
    (dictLookup ((do_GET baseCfg w10req failEnv).1).headers
       "Access-Control-Allow-Origin" = some "*" ∧
     dictLookup ((do_GET baseCfg w10req failEnv).1).headers
       "Access-Control-Allow-Credentials" = some "true") ∧
    (dictLookup ((do_OPTIONS baseCfg w10req).1).headers
       "Access-Control-Allow-Origin" = some "*" ∧
     dictLookup ((do_OPTIONS baseCfg w10req).1).headers
       "Access-Control-Allow-Credentials" = some "true") :=
  ⟨c10_cors_wildcard baseCfg w10req failEnv rfl
     ((do_GET baseCfg w10req failEnv).1) (by simp),
   c10_cors_wildcard baseCfg w10req failEnv rfl
     ((do_OPTIONS baseCfg w10req).1) (by simp)⟩

/-- Lookup in the empty dict. -/
theorem dictLookup_nil (k : String) : dictLookup [] k = none := rfl

theorem dictLookup_cons (k0 v0 : String) (rest : List (String × String))
    (k' : String) :
    dictLookup ((k0, v0) :: rest) k' =
      if k0 = k' then some v0 else dictLookup rest k' := by
  by_cases h : k0 = k'
  · subst h
    simp [dictLookup, List.find?]
  · simp [dictLookup, List.find?, beq_eq_false_iff_ne.mpr h, h]

theorem dictLookup_insert (d : List (String × String)) (k v k' : String) :
    dictLookup (dictInsert d k v) k' =
      if k' = k then some v else dictLookup d k' := by
  induction d with
  | nil =>
    by_cases h : k' = k
    · subst h; simp [dictInsert, dictLookup_cons]
    · have h2 : ¬k = k' := fun hc => h hc.symm
      simp [dictInsert, dictLookup_cons, h, h2]
  | cons kv0 rest ih =>
    obtain ⟨k0, v0⟩ := kv0
    by_cases h0 : k0 = k
    · subst h0
      rw [show dictInsert ((k0, v0) :: rest) k0 v = (k0, v) :: rest from by
        simp [dictInsert]]
      rw [dictLookup_cons, dictLookup_cons]
      by_cases h' : k0 = k'
      · subst h'; simp
      · have h2 : ¬k' = k0 := fun hc => h' hc.symm
        simp [h', h2]
    · rw [show dictInsert ((k0, v0) :: rest) k v =
          (k0, v0) :: dictInsert rest k v from by simp [dictInsert, h0]]
      rw [dictLookup_cons, dictLookup_cons, ih]
      by_cases h' : k0 = k'
      · subst h'
        simp [h0]
      · simp [h']
  
theorem dictLookup_pop (d : List (String × String)) (k k' : String) :
    dictLookup (dictPop d k) k' =
      if k' = k then none else dictLookup d k' := by
  induction d with
  | nil => by_cases h : k' = k <;> simp [dictPop, dictLookup_nil, h]
  | cons kv0 rest ih =>
    obtain ⟨k0, v0⟩ := kv0
    by_cases hk : k0 = k
    · subst hk
      rw [show dictPop ((k0, v0) :: rest) k0 = dictPop rest k0 from by
        simp [dictPop]]
      rw [ih, dictLookup_cons]
      by_cases h' : k' = k0
      · simp [h']
      · have h2 : ¬k0 = k' := fun hc => h' hc.symm
        simp [h', h2]
    · rw [show dictPop ((k0, v0) :: rest) k = (k0, v0) :: dictPop rest k from by
        simp [dictPop, hk, bne_iff_ne]]
      rw [dictLookup_cons, ih, dictLookup_cons]
      by_cases h' : k0 = k'
      · subst h'
        simp [hk]
      · simp [h']

theorem dictLookup_ofItems (hs : List (String × String)) (k : String) :
    dictLookup (dictOfItems hs) k = lastVal hs k := by
  suffices h : ∀ d, dictLookup
      (hs.foldl (fun d kv => dictInsert d kv.1 kv.2) d) k =
      (match lastVal hs k with
       | some v => some v
       | none => dictLookup d k) by
    have hbase := h []
    rw [dictOfItems, hbase]
    cases lastVal hs k <;> simp [dictLookup_nil]
  intro d
  induction hs generalizing d with
  | nil => simp [lastVal]
  | cons kv rest ih =>
    obtain ⟨k0, v0⟩ := kv
    simp only [List.foldl_cons]
    rw [ih (dictInsert d k0 v0)]
    cases hl : lastVal rest k with
    | some v => simp [lastVal, hl]
    | none =>
      simp only [lastVal, hl, dictLookup_insert]
      by_cases h' : k = k0
      · subst h'; simp
      · have h2 : ¬k0 = k := fun hc => h' hc.symm
        simp [h', h2]


/-- The routing and relay behaviour of the upload branch. -/
theorem do_POST_upload (cfg : ChatConfig) (req : Request) (env : ServerEnv)
    (h : req.path = "/api/upload") :
    do_POST cfg req env =
      (match env.upstream with
       | Except.ok (st, j) => send_json cfg req j st
       | Except.error e => send_json cfg req (errBody e) 500,
       [Effect.upstreamPost req.rawBody (fwdHeaders cfg req)]) := by
  have h1 : ¬(req.path = "/api/chat") := by rw [h]; decide
  simp only [do_POST, h, h1, if_false, ite_false, eq_self_iff_true, if_true,
    ite_true]
  cases env.upstream with
  | ok p => obtain ⟨st, j⟩ := p; rfl
  | error e => rfl

/-- Claim C8 (amended): POST /api/upload forwards the raw request body
unmodified together with the request's headers collapsed into a
name-to-value mapping in which, for each exactly spelled name, the last
occurrence in the request wins (so repeated header names lose all but their
last value), with "Host" removed and X-LOT-KEY overwritten by the configured
key when one is set; and it relays the upstream status code and JSON body
back unchanged (a raised proxy call or unparsable upstream body yields a 500
error body instead). -/
theorem c8_upload_proxy (cfg : ChatConfig) (req : Request) (env : ServerEnv)
    (h : req.path = "/api/upload") :
    (do_POST cfg req env).2 =
      [Effect.upstreamPost req.rawBody (fwdHeaders cfg req)] ∧
    (∀ k, dictLookup (fwdHeaders cfg req) k =
       if k = "Host" then none
       else if k = "X-LOT-KEY" ∧ cfg.vs_api_key ≠ "" then some cfg.vs_api_key
       else lastVal req.headers k) ∧
    (∀ st j, env.upstream = Except.ok (st, j) →
       (do_POST cfg req env).1.status = st ∧
       (do_POST cfg req env).1.body = RespBody.json j) ∧
    (∀ e, env.upstream = Except.error e →
       (do_POST cfg req env).1.status = 500 ∧
       (do_POST cfg req env).1.body = RespBody.json (errBody e)) := by
  refine ⟨by rw [do_POST_upload cfg req env h], ?_, ?_, ?_⟩
  · intro k
    rw [fwdHeaders]
    by_cases hkey : cfg.vs_api_key = ""
    · rw [if_pos hkey, dictLookup_pop, dictLookup_ofItems]
      by_cases hk : k = "Host" <;> simp [hk, hkey]
    · rw [if_neg hkey, dictLookup_insert]
      by_cases hx : k = "X-LOT-KEY"
      · subst hx
        simp [hkey]
      · rw [if_neg hx, dictLookup_pop, dictLookup_ofItems]
        by_cases hk : k = "Host" <;> simp [hk, hx, hkey]
  · intro st j hu
    rw [do_POST_upload cfg req env h, hu]
    exact ⟨rfl, rfl⟩
  · intro e hu
    rw [do_POST_upload cfg req env h, hu]
    exact ⟨rfl, rfl⟩

/-- Claim C8 counterexample: a request repeating the header name X-Dup with
values "a" then "b" forwards only ("X-Dup", "b") upstream — the pair
("X-Dup", "a"), which is neither Host nor X-LOT-KEY, is dropped by the dict
collapse, so not all request headers except Host are forwarded. -/
theorem c8_counterexample :
    ("X-Dup", "a") ∈ c8req.headers ∧ "X-Dup" ≠ "Host" ∧
    (do_POST baseCfg c8req c8env).2 =
      [Effect.upstreamPost [0] [("X-Dup", "b")]] ∧
    ("X-Dup", "a") ∉ [("X-Dup", "b")] :=
  ⟨by decide, by decide, by decide, by decide⟩

/-- Witness for c8_upload_proxy at the concrete duplicate-header request and
a 201 upstream answer. -/
theorem c8_upload_proxy_witness :
    (do_POST baseCfg c8req c8env).2 =
      [Effect.upstreamPost c8req.rawBody (fwdHeaders baseCfg c8req)] ∧
    (∀ k, dictLookup (fwdHeaders baseCfg c8req) k =
       if k = "Host" then none
       else if k = "X-LOT-KEY" ∧ baseCfg.vs_api_key ≠ "" then
         some baseCfg.vs_api_key
       else lastVal c8req.headers k) ∧
    ((do_POST baseCfg c8req c8env).1.status = 201 ∧
     (do_POST baseCfg c8req c8env).1.body =
       RespBody.json (JVal.obj [("ok", JVal.bool true)])) := by
  have h := c8_upload_proxy baseCfg c8req c8env rfl
  exact ⟨h.1, h.2.1, h.2.2.1 201 (JVal.obj [("ok", JVal.bool true)]) rfl⟩
